import Mathlib

/-!
Shallow embedding of the clawdbot-sendblue channel adapter
(src/poller.ts, src/webhook.ts, src/rpc.ts, src/types.ts) and proofs of
the specification claims about it.

Conventions of the embedding:
* JavaScript `Date` values and timestamps are modelled as `Nat` (milliseconds).
* Nullable / optional JS values are `Option`; JS truthiness of a string is
  `jsTruthy` (undefined, null and `""` are falsy).
* The SQLite-backed ledger (`db.ts` is not part of the sources; only the
  names it exports are) is modelled from the spec, §4.1, as a set of processed
  identifiers plus an append-only history list.
* The asynchronous functions of the source contain no `await` between the
  ledger operations of interest, so each handler body is embedded as one
  pure state transformer; its ledger calls are additionally recorded in an
  explicit trace (`LedgerOp`) so that statements about the *shape* of the
  marker check (read-then-write versus single conditional write) can be made.
-/

namespace Clawdbot

/-- Sendblue API message format (src/types.ts, `SendblueMessage`).
`content` and `media_url` are optional at runtime (the poller reads
`msg.content?.trim()`), hence `Option String`. `date_sent` is the parsed
timestamp in milliseconds. -/
structure SendblueMessage where
  message_handle : String
  content : Option String
  from_number : String
  date_sent : Nat
  is_outbound : Bool
  media_url : Option String
deriving DecidableEq, Repr

/-- Conversation message stored in the ledger
(src/types.ts, `ConversationMessage`, sans the autoincrement id/timestamp
that `db.ts` adds). -/
structure ConversationRecord where
  chat_id : String
  from_number : String
  content : String
  is_outbound : Bool
deriving DecidableEq, Repr

/-- Message event params sent over SSE (src/types.ts, `MessageEventParams`). -/
structure MessageEventParams where
  chat_id : String
  «from» : String
  content : String
  timestamp : Nat
  message_id : String
  media_url : Option String
deriving DecidableEq, Repr

/-- SSE event broadcast to subscribers (src/types.ts, `SseEvent`). -/
structure SseEventMsg where
  method : String
  params : MessageEventParams
deriving DecidableEq, Repr

/-- JS truthiness of an optional string: `undefined`, `null` and the empty
string are falsy. -/
def jsTruthy : Option String → Bool
  | none => false
  | some s => s ≠ ""

/-- JS `String.prototype.trim`, modelled over the character list: strip
whitespace from both ends. -/
def jsTrim (s : String) : String :=
  String.mk
    (((s.data.dropWhile Char.isWhitespace).reverse.dropWhile
        Char.isWhitespace).reverse)

/-- JS `String.prototype.startsWith`, modelled over the character list. -/
def jsStartsWith (s pre : String) : Bool :=
  List.isPrefixOf pre.data s.data

/-- JS `String.prototype.slice(n)` for `0 ≤ n`, modelled over the
character list. -/
def jsDrop (s : String) (n : Nat) : String :=
  String.mk (s.data.drop n)

/-- The Dedup Ledger state. Modelled from the spec: `db.ts` is not among the
sources; §4.1 specifies a durable set of ProcessedMarkers plus
ConversationRecords. -/
structure LedgerState where
  processed : List String
  history : List ConversationRecord
deriving DecidableEq, Repr

/-- Modelled from the spec: `isProcessed(id)` is true iff a ProcessedMarker
exists for `id` (§4.1; implemented by the absent `db.ts` as
`isMessageProcessed`). -/
def isMessageProcessed (st : LedgerState) (id : String) : Bool :=
  st.processed.contains id

/-- Modelled from the spec: `markProcessed(id)` is an idempotent insert into
the ProcessedMarker set (§4.1; implemented by the absent `db.ts` as
`markMessageProcessed`). -/
def markMessageProcessed (st : LedgerState) (id : String) : LedgerState :=
  if st.processed.contains id then st
  else { st with processed := id :: st.processed }

/-- Modelled from the spec: `appendHistory` appends a ConversationRecord
(§4.1; implemented by the absent `db.ts` as `addConversationMessage`). -/
def addConversationMessage (st : LedgerState) (chatId fromNum content : String)
    (isOutbound : Bool) : LedgerState :=
  { st with history := st.history ++ [⟨chatId, fromNum, content, isOutbound⟩] }

/-- One call into the ledger, as recorded in a handler's trace. -/
inductive LedgerOp where
  | queryProcessed (id : String) (result : Bool)
  | markProcessed (id : String)
  | appendHistory (chatId fromNum content : String) (isOutbound : Bool)
deriving DecidableEq, Repr

/-- Poller configuration (the slice of src/types.ts `Config` the poller's
message processing reads). -/
structure PollerConfig where
  allowlist : List String
deriving DecidableEq, Repr

/-- `num.replace(/\D/g, '')` from `Poller.isAllowed` (src/poller.ts):
strip every non-digit character. -/
def normalizeNum (s : String) : String :=
  String.mk (s.data.filter Char.isDigit)

/-- `Poller.isAllowed` (src/poller.ts): an empty allowlist accepts all;
otherwise the normalized number must match some normalized entry. -/
def pollerIsAllowed (cfg : PollerConfig) (phoneNumber : String) : Bool :=
  if cfg.allowlist.isEmpty then true
  else cfg.allowlist.any (fun w => normalizeNum w = normalizeNum phoneNumber)

/-- `msg.content?.trim() || ''` from `Poller.processMessage`. -/
def trimmedContent (msg : SendblueMessage) : String :=
  match msg.content with
  | none => ""
  | some s => jsTrim s

/-- Result of running `Poller.processMessage` on one message: the ledger
after the call, the SSE events broadcast, and the trace of ledger calls
made, in order. -/
structure ProcResult where
  ledger : LedgerState
  broadcasts : List SseEventMsg
  trace : List LedgerOp
deriving DecidableEq, Repr

/-- `Poller.processMessage` (src/poller.ts lines 131-188). The body runs
synchronously (it contains no `await`), so it is one atomic state
transformer with respect to the event loop. -/
def processMessage (cfg : PollerConfig) (st : LedgerState)
    (msg : SendblueMessage) : ProcResult :=
  -- Skip if already processed
  if isMessageProcessed st msg.message_handle then
    ⟨st, [], [.queryProcessed msg.message_handle true]⟩
  else
    -- Mark as processed immediately to avoid duplicates
    let st1 := markMessageProcessed st msg.message_handle
    let t0 : List LedgerOp :=
      [.queryProcessed msg.message_handle false, .markProcessed msg.message_handle]
    -- Check allowlist
    if ¬ pollerIsAllowed cfg msg.from_number then
      ⟨st1, [], t0⟩
    else
      let content := trimmedContent msg
      let mediaUrl := msg.media_url
      -- Skip if no content and no media
      if content = "" ∧ ¬ jsTruthy mediaUrl then
        ⟨st1, [], t0⟩
      else
        -- Build message content (include media URL if present)
        let messageContent :=
          if jsTruthy mediaUrl then
            let mediaNotice := "[Media: " ++ mediaUrl.getD "" ++ "]"
            if content ≠ "" then content ++ "\n\n" ++ mediaNotice else mediaNotice
          else content
        let st2 := addConversationMessage st1 msg.from_number msg.from_number
          messageContent false
        let eventParams : MessageEventParams :=
          { chat_id := msg.from_number
            «from» := msg.from_number
            content := messageContent
            timestamp := msg.date_sent
            message_id := msg.message_handle
            media_url := if jsTruthy mediaUrl then mediaUrl else none }
        ⟨st2, [⟨"message", eventParams⟩],
          t0 ++ [.appendHistory msg.from_number msg.from_number messageContent false]⟩

/-- The poll loop body over a fetched batch: `for (const msg of messages)
await this.processMessage(msg)` (src/poller.ts lines 117-119). -/
def processMessages (cfg : PollerConfig) (st : LedgerState) :
    List SendblueMessage → LedgerState × List SseEventMsg
  | [] => (st, [])
  | msg :: rest =>
    let r := processMessage cfg st msg
    let (st', evs) := processMessages cfg r.ledger rest
    (st', r.broadcasts ++ evs)

/-- Poller state relevant to a poll cycle (src/poller.ts fields
`lastPollTime`, `isPolling`, plus the shared ledger). -/
structure PollerState where
  lastPollTime : Nat
  isPolling : Bool
  ledger : LedgerState
deriving DecidableEq, Repr

/-- `Poller.poll` (src/poller.ts lines 99-126). `pollStart` is the value of
`Date.now()` at the top of the cycle (used by the source only for duration
logging), `fetchResult` the outcome of
`this.sendblue.getInboundMessages(this.lastPollTime)`, and `nowAfterFetch`
the value of `new Date()` taken after that call returns. A throwing fetch
is the `Except.error` case: control jumps to the `catch`, so the
`this.lastPollTime = new Date()` assignment on line 109 never runs. -/
def poll (cfg : PollerConfig) (pst : PollerState) (pollStart : Nat)
    (fetchResult : Except Unit (List SendblueMessage)) (nowAfterFetch : Nat) :
    PollerState × List SseEventMsg :=
  if pst.isPolling then (pst, [])
  else
    let _ := pollStart
    match fetchResult with
    | .error _ => (pst, [])
    | .ok messages =>
      let pst1 := { pst with lastPollTime := nowAfterFetch }
      let (led, evs) := processMessages cfg pst1.ledger messages
      ({ pst1 with ledger := led }, evs)

/-! ### Rate limiter (src/webhook.ts, `InMemoryRateLimiter`) -/

/-- One per-identity window entry (src/webhook.ts, `RateLimitEntry`). -/
structure RateLimitEntry where
  count : Nat
  windowStart : Nat
deriving DecidableEq, Repr

/-- The limiter's `requests` map, as an association list (latest binding
first). -/
def RateLimiterState := List (String × RateLimitEntry)
deriving DecidableEq, Repr

/-- `this.requests.get(identifier)`. -/
def rlGet (st : RateLimiterState) (identifier : String) : Option RateLimitEntry :=
  (List.find? (fun p => p.1 = identifier) st).map (·.2)

/-- `this.requests.set(identifier, e)`: replace or insert. -/
def rlSet (st : RateLimiterState) (identifier : String) (e : RateLimitEntry) :
    RateLimiterState :=
  (identifier, e) :: List.filter (fun p => ¬ p.1 = identifier) st

/-- `InMemoryRateLimiter.isAllowed` (src/webhook.ts lines 32-45), with the
call's `Date.now()` passed in as `now`. Returns the decision and the
updated map (`entry.count++` mutates the stored entry in place). -/
def isAllowed (windowMs maxRequests : Nat) (st : RateLimiterState)
    (identifier : String) (now : Nat) : Bool × RateLimiterState :=
  match rlGet st identifier with
  | none => (true, rlSet st identifier ⟨1, now⟩)
  | some entry =>
    if now - entry.windowStart > windowMs then
      (true, rlSet st identifier ⟨1, now⟩)
    else if entry.count ≥ maxRequests then
      (false, st)
    else
      (true, rlSet st identifier { entry with count := entry.count + 1 })

/-- `rateLimitConfig?.windowMs || 60000` (src/webhook.ts line 142): an
absent or falsy (zero) configured width defaults to 60000 ms. -/
def effectiveWindowMs (cfg : Option Nat) : Nat :=
  match cfg with
  | none => 60000
  | some w => if w = 0 then 60000 else w

/-- `rateLimitConfig?.maxRequests || 60` (src/webhook.ts line 143): an
absent or falsy (zero) configured ceiling defaults to 60. -/
def effectiveMaxRequests (cfg : Option Nat) : Nat :=
  match cfg with
  | none => 60
  | some m => if m = 0 then 60 else m

/-! ### Webhook server (src/webhook.ts, `startWebhookServer`) -/

/-- `MAX_BODY_SIZE` (src/webhook.ts line 11). -/
def MAX_BODY_SIZE : Nat := 1024 * 1024

/-- A JSON value as produced by `JSON.parse`. Object fields are kept in
source order; a duplicated key resolves to its last occurrence, as in JS. -/
inductive Json where
  | null
  | bool (b : Bool)
  | num (n : Int)
  | str (s : String)
  | arr (elems : List Json)
  | obj (fields : List (String × Json))

/-- JS property access `payload.k` on a parsed JSON value: defined only on
objects, last duplicate key wins. -/
def jsonGet (j : Json) (k : String) : Option Json :=
  match j with
  | .obj fields => (List.find? (fun p => p.1 = k) fields.reverse).map (·.2)
  | _ => none

/-- JS truthiness of an optional JSON value (`undefined`, `null`, `false`,
`0` and `""` are falsy; every object or array is truthy). -/
def jsTruthyJson : Option Json → Bool
  | none => false
  | some .null => false
  | some (.bool b) => b
  | some (.num n) => n ≠ 0
  | some (.str s) => s ≠ ""
  | some (.arr _) => true
  | some (.obj _) => true

/-- `isValidSendbluePayload` (src/webhook.ts lines 89-98): the payload must
be a non-null object whose `message_handle` and `from_number` are non-empty
strings. (`typeof x === 'object'` is also true of arrays; property lookup
on an array yields `undefined`, so arrays fail the string checks.) -/
def isValidSendbluePayload (payload : Json) : Bool :=
  (match payload with
   | .obj _ => true
   | .arr _ => true
   | _ => false) &&
  (match jsonGet payload "message_handle" with
   | some (.str s) => s.length > 0
   | _ => false) &&
  (match jsonGet payload "from_number" with
   | some (.str s) => s.length > 0
   | _ => false)

/-- Request headers as an association list (Node lowercases header names). -/
def headerGet (headers : List (String × String)) (k : String) : Option String :=
  (List.find? (fun p => p.1 = k) headers).map (·.2)

/-- JS `a || b` on optional header strings: an absent or empty-string value
falls through to the right operand. -/
def jsOrStr : Option String → Option String → Option String
  | none, b => b
  | some s, b => if s = "" then b else some s

/-- `verifySecret` (src/webhook.ts lines 104-121): the first
truthy header among `x-sendblue-secret`, `x-webhook-secret`, `x-api-key`,
`authorization` is compared against the expected secret, after stripping a
`Bearer ` prefix. -/
def verifySecret (headers : List (String × String)) (expectedSecret : String) :
    Bool :=
  let providedSecret :=
    jsOrStr (headerGet headers "x-sendblue-secret")
      (jsOrStr (headerGet headers "x-webhook-secret")
        (jsOrStr (headerGet headers "x-api-key")
          (headerGet headers "authorization")))
  match providedSecret with
  | some ps =>
    (if jsStartsWith ps "Bearer " then jsDrop ps 7 else ps) = expectedSecret
  | none => false

/-- Webhook server configuration (src/webhook.ts, `WebhookServerConfig`,
with the rate-limit settings already resolved through
`effectiveWindowMs` / `effectiveMaxRequests`). -/
structure WebhookConfig where
  path : String
  secret : Option String
  windowMs : Nat
  maxRequests : Nat
deriving DecidableEq, Repr

/-- An incoming HTTP request, with its body fully collected. `parsed` is
the outcome of the platform's `JSON.parse(body)`: `none` when the body is
malformed JSON. -/
structure WebhookRequest where
  method : String
  url : String
  headers : List (String × String)
  remoteAddress : Option String
  body : String
  parsed : Option Json

/-- The response bodies the webhook handler writes (JSON literals in the
source). -/
inductive ResponseBody where
  | empty
  | statusOk (serverId : String)
  | received
  | errorTooManyRequests
  | errorUnauthorized
  | errorPayloadTooLarge
  | errorInvalidJson
  | errorMissingFields
deriving DecidableEq, Repr

/-- An HTTP response as the handler writes it; `retryAfterSecs` is the
value of the `Retry-After` header when one is set. -/
structure HttpResponse where
  status : Nat
  body : ResponseBody
  retryAfterSecs : Option Nat
deriving DecidableEq, Repr

/-- Outcome of one webhook request: the response written, the limiter map
afterwards, and the payload `onMessage` is invoked with (`none` when
`onMessage` is not invoked at all). -/
structure WebhookResult where
  response : HttpResponse
  rl : RateLimiterState
  onMessageArg : Option Json

/-- `req.socket.remoteAddress || 'unknown'` (src/webhook.ts line 148). -/
def clientIP (req : WebhookRequest) : String :=
  match req.remoteAddress with
  | none => "unknown"
  | some a => if a = "" then "unknown" else a

/-- The `req.on('end')` continuation (src/webhook.ts lines 208-242): JSON
parse failure and field validation yield 400; a structurally valid payload
is acknowledged with 200 `received` immediately, and `onMessage` is
invoked afterwards exactly when the payload is not flagged outbound. -/
def handleBodyEnd (rl1 : RateLimiterState) (parsed : Option Json) :
    WebhookResult :=
  match parsed with
  | none => ⟨⟨400, .errorInvalidJson, none⟩, rl1, none⟩
  | some payload =>
    if ¬ isValidSendbluePayload payload then
      ⟨⟨400, .errorMissingFields, none⟩, rl1, none⟩
    -- Respond 200 OK - payload is valid, we'll process it async
    else if jsTruthyJson (jsonGet payload "is_outbound") then
      -- Only process inbound messages
      ⟨⟨200, .received, none⟩, rl1, none⟩
    else
      ⟨⟨200, .received, none⟩, rl1, some payload⟩

/-- The per-request handler installed by `startWebhookServer`
(src/webhook.ts lines 147-242), for a request whose body was fully
collected: health probe, method/path routing, rate limiting (429 with the
hard-coded `Retry-After: 60` header), secret verification, the 413
body-size ceiling, then the body-end continuation. -/
def handleWebhookRequest (cfg : WebhookConfig) (serverId : String)
    (rl : RateLimiterState) (req : WebhookRequest) (now : Nat) : WebhookResult :=
  if req.method = "GET" ∧ req.url = "/health" then
    ⟨⟨200, .statusOk serverId, none⟩, rl, none⟩
  else if ¬ (req.method = "POST" ∧ jsStartsWith req.url cfg.path) then
    ⟨⟨404, .empty, none⟩, rl, none⟩
  else
    let step := isAllowed cfg.windowMs cfg.maxRequests rl (clientIP req) now
    if ¬ step.1 then
      ⟨⟨429, .errorTooManyRequests, some 60⟩, step.2, none⟩
    else if (match cfg.secret with
             | some s => ! verifySecret req.headers s
             | none => false) then
      ⟨⟨401, .errorUnauthorized, none⟩, step.2, none⟩
    else if req.body.length > MAX_BODY_SIZE then
      ⟨⟨413, .errorPayloadTooLarge, none⟩, step.2, none⟩
    else
      handleBodyEnd step.2 req.parsed

/-! ### JSON-RPC handler (src/rpc.ts, `handleRpc`) -/

/-- A JSON-RPC id: string or number (src/types.ts, `JsonRpcRequest.id`). -/
inductive RpcId where
  | str (s : String)
  | num (n : Int)
deriving DecidableEq, Repr

/-- The parameter fields the handlers read, each present or absent; the
values carry the types declared by src/types.ts (`SendParams` and the
inline chat-param shapes). -/
structure RpcParams where
  «to» : Option String := none
  content : Option String := none
  media_url : Option String := none
  chat_id : Option String := none
  limit : Option Nat := none
deriving DecidableEq, Repr

/-- JSON-RPC request (src/types.ts, `JsonRpcRequest`); `id := none` models
an absent id. -/
structure JsonRpcRequest where
  method : String
  params : Option RpcParams := none
  id : Option RpcId := none
deriving DecidableEq, Repr

/-- Chat summary returned by `chats.list` (src/types.ts, `ChatInfo`). -/
structure ChatInfo where
  chat_id : String
  last_message : Option String
  last_timestamp : Option Nat
  message_count : Nat
deriving DecidableEq, Repr

/-- The result payloads the handlers return. -/
inductive RpcResult where
  | subscribed
  | unsubscribed
  | sendResult (messageId : String)
  | chats (cs : List ChatInfo)
  | messages (ms : List ConversationRecord)
  | cleared
  | status (running : Bool) (version : String)
deriving DecidableEq, Repr

/-- A JSON-RPC error object (src/types.ts): code and message. -/
structure RpcError where
  code : Int
  message : String
deriving DecidableEq, Repr

/-- JSON-RPC response (src/types.ts, `JsonRpcResponse`); `id := none`
models the JSON `null` id. -/
structure JsonRpcResponse where
  result : Option RpcResult
  error : Option RpcError
  id : Option RpcId
deriving DecidableEq, Repr

/-- `success` (src/rpc.ts lines 12-18). -/
def success (id : Option RpcId) (result : RpcResult) : JsonRpcResponse :=
  ⟨some result, none, id⟩

/-- `error` (src/rpc.ts lines 23-29). -/
def rpcError (id : Option RpcId) (code : Int) (message : String) :
    JsonRpcResponse :=
  ⟨none, some ⟨code, message⟩, id⟩

/-- The collaborators `handleRpc` dispatches to (the poller singleton and
the `db.js` query functions), each modelled as a call that either returns
or throws (`Except.error` carries the thrown error's message). -/
structure RpcEnv where
  pollerStart : Except String Unit
  pollerStop : Except String Unit
  sendMessage : String → String → Option String → Except String String
  getAllChats : Except String (List ChatInfo)
  getConversationHistory : String → Nat → Except String (List ConversationRecord)
  clearConversationHistory : String → Except String Unit
  pollerIsActive : Bool

/-- JS falsiness of an optional string value (`!x`): absent, null or empty. -/
def jsFalsyStr : Option String → Bool
  | none => true
  | some s => s = ""

/-- `p?.to` on the optional params object. -/
def paramTo (p : Option RpcParams) : Option String :=
  match p with
  | none => none
  | some ps => ps.«to»

/-- `p?.content` on the optional params object. -/
def paramContent (p : Option RpcParams) : Option String :=
  match p with
  | none => none
  | some ps => ps.content

/-- `p?.chat_id` on the optional params object. -/
def paramChatId (p : Option RpcParams) : Option String :=
  match p with
  | none => none
  | some ps => ps.chat_id

/-- The `catch` branch of `handleRpc` (src/rpc.ts lines 107-111), applied
to a collaborator outcome: a throw becomes a -32603 error response. -/
def catchInternal (rpcId : Option RpcId) (r : Except String JsonRpcResponse) :
    JsonRpcResponse :=
  match r with
  | .ok resp => resp
  | .error msg => rpcError rpcId (-32603) ("Internal error: " ++ msg)

/-- `handleRpc` (src/rpc.ts lines 34-112): dispatch on `method` with
`id ?? null` echoed, -32602 on missing required params, -32601 on an
unknown method, and every collaborator throw caught and converted to a
-32603 response. -/
def handleRpc (env : RpcEnv) (request : JsonRpcRequest) : JsonRpcResponse :=
  let rpcId := request.id
  catchInternal rpcId <|
    match request.method with
    | "watch.subscribe" => do
      let _ ← env.pollerStart
      pure (success rpcId .subscribed)
    | "watch.unsubscribe" => do
      let _ ← env.pollerStop
      pure (success rpcId .unsubscribed)
    | "send" =>
      let p := request.params
      -- if (!p?.to || p?.content === undefined)
      if jsFalsyStr (paramTo p) ∨ paramContent p = none then
        pure (rpcError rpcId (-32602) "Invalid params: \"to\" and \"content\" required")
      else do
        let ps := p.getD {}
        let messageId ← env.sendMessage (ps.«to».getD "") (ps.content.getD "") ps.media_url
        pure (success rpcId (.sendResult messageId))
    | "chats.list" => do
      let chats ← env.getAllChats
      pure (success rpcId (.chats chats))
    | "chats.history" =>
      -- if (!p?.chat_id)
      if jsFalsyStr (paramChatId request.params) then
        pure (rpcError rpcId (-32602) "Invalid params: \"chat_id\" required")
      else do
        let ps := request.params.getD {}
        let history ← env.getConversationHistory (ps.chat_id.getD "") (ps.limit.getD 50)
        pure (success rpcId (.messages history))
    | "chats.clear" =>
      -- if (!p?.chat_id)
      if jsFalsyStr (paramChatId request.params) then
        pure (rpcError rpcId (-32602) "Invalid params: \"chat_id\" required")
      else do
        let ps := request.params.getD {}
        let _ ← env.clearConversationHistory (ps.chat_id.getD "")
        pure (success rpcId .cleared)
    | "status" =>
      pure (success rpcId (.status env.pollerIsActive "1.0.0"))
    | m =>
      pure (rpcError rpcId (-32601) ("Method not found: " ++ m))

/-- The error code of a response, when it is an error response. -/
def respErrorCode (r : JsonRpcResponse) : Option Int :=
  r.error.map (·.code)

/-! ### Derived notions used by the claims -/

/-- The marker-related ledger operations (ProcessedMarker reads and writes)
of a trace, in order. -/
def markerOps (t : List LedgerOp) : List LedgerOp :=
  t.filter fun op =>
    match op with
    | .queryProcessed _ _ => true
    | .markProcessed _ => true
    | .appendHistory _ _ _ _ => false

/-- The spec's "a single conditional write, not read-then-write" property of
a handler's ledger-call trace: the dedup decision shows up as exactly one
marker operation — one conditional write — with no separate marker read. -/
def isSingleConditionalWrite (t : List LedgerOp) : Bool :=
  match markerOps t with
  | [.markProcessed _] => true
  | _ => false

/-- Run a sequence of rate-limiter checks for one identity, one call per
listed request time, threading the map through. -/
def runRequests (windowMs maxRequests : Nat) (identifier : String) :
    RateLimiterState → List Nat → List Bool × RateLimiterState
  | st, [] => ([], st)
  | st, t :: ts =>
    let p := isAllowed windowMs maxRequests st identifier t
    let q := runRequests windowMs maxRequests identifier p.2 ts
    (p.1 :: q.1, q.2)

/-! ### Concrete fixtures for the witnesses and counterexamples -/

/-- An empty allowlist (accept all senders). -/
def cfg0 : PollerConfig := ⟨[]⟩

/-- An empty ledger. -/
def ledger0 : LedgerState := ⟨[], []⟩

/-- A ledger on which identifier `A` is already marked processed. -/
def ledgerA : LedgerState := ⟨["A"], []⟩

/-- A fresh plain-text message with identifier `X`. -/
def msgX : SendblueMessage := ⟨"X", some "hi", "+15551234567", 1000, false, none⟩

/-- A message with the already-processed identifier `A`. -/
def msgA : SendblueMessage := ⟨"A", some "hello A", "+15550000001", 1000, false, none⟩

/-- A fresh message with identifier `B`. -/
def msgB : SendblueMessage := ⟨"B", some "hello B", "+15550000002", 2000, false, none⟩

/-- A poller state with cursor 50 and no cycle in flight. -/
def pst0 : PollerState := ⟨50, false, ledger0⟩

/-- Collaborators that all succeed (used to instantiate `RpcEnv`). -/
def env0 : RpcEnv where
  pollerStart := .ok ()
  pollerStop := .ok ()
  sendMessage := fun _ _ _ => .ok "msg-1"
  getAllChats := .ok []
  getConversationHistory := fun _ _ => .ok []
  clearConversationHistory := fun _ => .ok ()
  pollerIsActive := false

/-- Collaborators that all throw (used to instantiate `RpcEnv`). -/
def envFail : RpcEnv where
  pollerStart := .error "boom"
  pollerStop := .error "boom"
  sendMessage := fun _ _ _ => .error "boom"
  getAllChats := .error "boom"
  getConversationHistory := fun _ _ => .error "boom"
  clearConversationHistory := fun _ => .error "boom"
  pollerIsActive := false

/-- A webhook configuration with a 120-second window (`windowMs` not left
at its 60000 ms default). -/
def cfgW120 : WebhookConfig := ⟨"/webhook", none, 120000, 60⟩

/-- A limiter map in which `1.2.3.4` has exhausted its window: 60 requests
counted since window start 0. -/
def rlFull : RateLimiterState := [("1.2.3.4", ⟨60, 0⟩)]

/-- A POST to the webhook path from `1.2.3.4` with a structurally valid
payload. -/
def reqValid : WebhookRequest :=
  { method := "POST"
    url := "/webhook"
    headers := []
    remoteAddress := some "1.2.3.4"
    body := "x"
    parsed := some (.obj [("message_handle", .str "X"),
                          ("from_number", .str "+15551234567"),
                          ("content", .str "hi"),
                          ("is_outbound", .bool false)]) }

/-- An allowlist that does not contain `msgX`'s sender. -/
def cfgAllow : PollerConfig := ⟨["+15559990000"]⟩

/-! ## Helper lemmas -/

theorem processMessage_of_processed (cfg : PollerConfig) (st : LedgerState)
    (msg : SendblueMessage)
    (h : isMessageProcessed st msg.message_handle = true) :
    processMessage cfg st msg =
      ⟨st, [], [.queryProcessed msg.message_handle true]⟩ := by
  simp [processMessage, h]

theorem markMessageProcessed_history (st : LedgerState) (id : String) :
    (markMessageProcessed st id).history = st.history := by
  unfold markMessageProcessed
  split <;> rfl

theorem markMessageProcessed_processed (st : LedgerState) (id : String)
    (h : isMessageProcessed st id = false) :
    (markMessageProcessed st id).processed = id :: st.processed := by
  unfold isMessageProcessed at h
  unfold markMessageProcessed
  rw [h]
  simp

theorem processMessage_marks (cfg : PollerConfig) (st : LedgerState)
    (msg : SendblueMessage)
    (h : isMessageProcessed st msg.message_handle = false) :
    (processMessage cfg st msg).ledger.processed =
      msg.message_handle :: st.processed := by
  simp only [processMessage, h, Bool.false_eq_true, if_false]
  split
  · exact markMessageProcessed_processed st _ h
  · split
    · exact markMessageProcessed_processed st _ h
    · exact markMessageProcessed_processed st _ h

theorem processMessage_isProcessed (cfg : PollerConfig) (st : LedgerState)
    (msg : SendblueMessage)
    (h : isMessageProcessed st msg.message_handle = false) :
    isMessageProcessed (processMessage cfg st msg).ledger msg.message_handle
      = true := by
  unfold isMessageProcessed
  rw [processMessage_marks cfg st msg h]
  simp [List.contains_cons]

theorem processMessage_filtered (cfg : PollerConfig) (st : LedgerState)
    (msg : SendblueMessage)
    (h : isMessageProcessed st msg.message_handle = false)
    (hdrop : pollerIsAllowed cfg msg.from_number = false ∨
      (trimmedContent msg = "" ∧ jsTruthy msg.media_url = false)) :
    (processMessage cfg st msg).ledger.history = st.history ∧
    (processMessage cfg st msg).broadcasts = [] := by
  rcases hdrop with hA | ⟨hc, hm⟩
  · simp [processMessage, h, hA, markMessageProcessed_history]
  · by_cases hA : pollerIsAllowed cfg msg.from_number
    · simp [processMessage, h, hA, hc, hm, markMessageProcessed_history]
    · simp [processMessage, h, hA, markMessageProcessed_history]

/-! ## Claims -/

/-- C3: a message whose identifier is already marked processed is silently
discarded by `Poller.processMessage`: the ledger — history included — is
left unchanged and nothing is broadcast. -/
theorem already_processed_is_discarded (cfg : PollerConfig) (st : LedgerState)
    (msg : SendblueMessage)
    (h : isMessageProcessed st msg.message_handle = true) :
    (processMessage cfg st msg).ledger = st ∧
    (processMessage cfg st msg).broadcasts = [] := by
  rw [processMessage_of_processed cfg st msg h]
  exact ⟨rfl, rfl⟩

/-- C3 witness: the spec's scenario. With `A` already marked processed,
processing `A` changes nothing, and polling the batch `[A, B]` appends and
broadcasts only `B`. -/
theorem already_processed_is_discarded_witness :
    (isMessageProcessed ledgerA "A" = true ∧
     (processMessage cfg0 ledgerA msgA).ledger = ledgerA ∧
     (processMessage cfg0 ledgerA msgA).broadcasts = []) ∧
    (processMessages cfg0 ledgerA [msgA, msgB]).1.history =
      [⟨"+15550000002", "+15550000002", "hello B", false⟩] ∧
    (processMessages cfg0 ledgerA [msgA, msgB]).2 =
      [⟨"message", ⟨"+15550000002", "+15550000002", "hello B", 2000, "B", none⟩⟩] := by
  have h := already_processed_is_discarded cfg0 ledgerA msgA (by decide)
  exact ⟨⟨by decide, h.1, h.2⟩, by decide, by decide⟩

/-- C9: `Poller.processMessage` marks an unprocessed identifier processed
before the allowlist filter and the empty-content check run, so a message
dropped by either filter is still permanently marked, and any later
observation of the same identifier appends nothing to history and
broadcasts nothing. -/
theorem marked_before_filters (cfg : PollerConfig) (st : LedgerState)
    (msg : SendblueMessage)
    (h : isMessageProcessed st msg.message_handle = false) :
    isMessageProcessed (processMessage cfg st msg).ledger msg.message_handle
      = true ∧
    ((pollerIsAllowed cfg msg.from_number = false ∨
        (trimmedContent msg = "" ∧ jsTruthy msg.media_url = false)) →
      (processMessage cfg st msg).ledger.history = st.history ∧
      (processMessage cfg st msg).broadcasts = []) ∧
    (∀ st' : LedgerState,
      isMessageProcessed st' msg.message_handle = true →
      ∀ msg' : SendblueMessage, msg'.message_handle = msg.message_handle →
        (processMessage cfg st' msg').ledger.history = st'.history ∧
        (processMessage cfg st' msg').broadcasts = []) := by
  refine ⟨processMessage_isProcessed cfg st msg h, processMessage_filtered cfg st msg h, ?_⟩
  intro st' hst' msg' hid
  have h' : isMessageProcessed st' msg'.message_handle = true := by
    rw [hid]; exact hst'
  rw [processMessage_of_processed cfg st' msg' h']
  exact ⟨rfl, rfl⟩

/-- C9 witness: `msgX` is not on `cfgAllow`'s allowlist; processing it
appends no history and broadcasts nothing, yet permanently marks `X`
processed, and a later observation of `X` is discarded. -/
theorem marked_before_filters_witness :
    isMessageProcessed ledger0 "X" = false ∧
    pollerIsAllowed cfgAllow "+15551234567" = false ∧
    isMessageProcessed (processMessage cfgAllow ledger0 msgX).ledger "X" = true ∧
    (processMessage cfgAllow ledger0 msgX).ledger.history = [] ∧
    (processMessage cfgAllow ledger0 msgX).broadcasts = [] := by
  have h := marked_before_filters cfgAllow ledger0 msgX (by decide)
  have hf := h.2.1 (Or.inl (by decide))
  exact ⟨by decide, by decide, h.1, hf.1, hf.2⟩

/-- C7: content normalization in `Poller.processMessage`. For a fresh,
allowlisted message: with both trimmed text and a (truthy) media reference
present, the delivered content is the text, a blank line, then the
bracketed `[Media: url]` notice; with only media present, the notice is
the entire content; with neither present the message is skipped entirely —
no history append and no broadcast. -/
theorem content_normalization (cfg : PollerConfig) (st : LedgerState)
    (msg : SendblueMessage)
    (h : isMessageProcessed st msg.message_handle = false)
    (hA : pollerIsAllowed cfg msg.from_number = true) :
    ((trimmedContent msg ≠ "" ∧ jsTruthy msg.media_url = true) →
      (processMessage cfg st msg).broadcasts =
        [⟨"message", ⟨msg.from_number, msg.from_number,
          trimmedContent msg ++ "\n\n" ++ ("[Media: " ++ msg.media_url.getD "" ++ "]"),
          msg.date_sent, msg.message_handle, msg.media_url⟩⟩] ∧
      (processMessage cfg st msg).ledger.history =
        st.history ++ [⟨msg.from_number, msg.from_number,
          trimmedContent msg ++ "\n\n" ++ ("[Media: " ++ msg.media_url.getD "" ++ "]"),
          false⟩]) ∧
    ((trimmedContent msg = "" ∧ jsTruthy msg.media_url = true) →
      (processMessage cfg st msg).broadcasts =
        [⟨"message", ⟨msg.from_number, msg.from_number,
          "[Media: " ++ msg.media_url.getD "" ++ "]",
          msg.date_sent, msg.message_handle, msg.media_url⟩⟩] ∧
      (processMessage cfg st msg).ledger.history =
        st.history ++ [⟨msg.from_number, msg.from_number,
          "[Media: " ++ msg.media_url.getD "" ++ "]", false⟩]) ∧
    ((trimmedContent msg = "" ∧ jsTruthy msg.media_url = false) →
      (processMessage cfg st msg).ledger.history = st.history ∧
      (processMessage cfg st msg).broadcasts = []) := by
  refine ⟨?_, ?_, ?_⟩
  · rintro ⟨hc, hm⟩
    simp [processMessage, h, hA, hc, hm, addConversationMessage,
      markMessageProcessed_history]
  · rintro ⟨hc, hm⟩
    simp [processMessage, h, hA, hc, hm, addConversationMessage,
      markMessageProcessed_history]
  · rintro ⟨hc, hm⟩
    exact processMessage_filtered cfg st msg h (Or.inr ⟨hc, hm⟩)

/-- C7 witness: a message carrying both text and media is delivered as
text, blank line, bracketed notice; one with only media is delivered as
the bare notice; one with neither is skipped. -/
theorem content_normalization_witness :
    ((trimmedContent (SendblueMessage.mk "M1" (some " hi ") "+15551234567" 1 false
        (some "http://cdn/img.png")) ≠ "" ∧
      jsTruthy (some "http://cdn/img.png") = true) ∧
     (processMessage cfg0 ledger0
        (SendblueMessage.mk "M1" (some " hi ") "+15551234567" 1 false
          (some "http://cdn/img.png"))).broadcasts =
      [⟨"message", ⟨"+15551234567", "+15551234567",
        "hi\n\n[Media: http://cdn/img.png]", 1, "M1", some "http://cdn/img.png"⟩⟩]) ∧
    (processMessage cfg0 ledger0
        (SendblueMessage.mk "M2" none "+15551234567" 2 false
          (some "http://cdn/img.png"))).broadcasts =
      [⟨"message", ⟨"+15551234567", "+15551234567",
        "[Media: http://cdn/img.png]", 2, "M2", some "http://cdn/img.png"⟩⟩] ∧
    ((processMessage cfg0 ledger0
        (SendblueMessage.mk "M3" (some "   ") "+15551234567" 3 false none)).ledger.history = [] ∧
     (processMessage cfg0 ledger0
        (SendblueMessage.mk "M3" (some "   ") "+15551234567" 3 false none)).broadcasts = []) := by
  refine ⟨⟨⟨by decide, by decide⟩, ?_⟩, ?_, ?_⟩
  · exact ((content_normalization cfg0 ledger0 _ (by decide) (by decide)).1
      ⟨by decide, by decide⟩).1
  · exact ((content_normalization cfg0 ledger0 _ (by decide) (by decide)).2.1
      ⟨by decide, by decide⟩).1
  · exact (content_normalization cfg0 ledger0 _ (by decide) (by decide)).2.2
      ⟨by decide, by decide⟩

/-- C1 counterexample: the claim's mechanism clause fails on the code. The
"first-seen wins" marker check of `Poller.processMessage` is a read
(`isMessageProcessed`, line 133) followed by a separate write
(`markMessageProcessed`, line 138): on the fresh message `X` its ledger
trace contains two marker operations, a query and then a mark, so it is a
read-then-write sequence and not a single conditional write. -/
theorem dedup_check_not_single_conditional_write :
    markerOps (processMessage cfg0 ledger0 msgX).trace =
      [.queryProcessed "X" false, .markProcessed "X"] ∧
    isSingleConditionalWrite (processMessage cfg0 ledger0 msgX).trace = false := by
  decide

/-- C1 (amended): the read-then-write dedup segment of
`Poller.processMessage` contains no suspension point (the function body has
no `await`), so on the single-threaded event loop each producer's
check-and-mark block runs atomically. The Webhook Ingestor's handler is
specified (§4.4 step 7) to run the same dedup block, so the two producers'
observations of one message serialize into two consecutive runs of
`processMessage`, in either order (both orders are the same composition).
For a deliverable message first seen unprocessed, the first run broadcasts
exactly once and the second run broadcasts nothing and changes nothing:
exactly one delivery to the Broadcaster occurs. -/
theorem exactly_one_delivery (cfg : PollerConfig) (st : LedgerState)
    (msg : SendblueMessage)
    (h : isMessageProcessed st msg.message_handle = false)
    (hA : pollerIsAllowed cfg msg.from_number = true)
    (hC : ¬ (trimmedContent msg = "" ∧ jsTruthy msg.media_url = false)) :
    (processMessage cfg st msg).broadcasts.length = 1 ∧
    (processMessage cfg (processMessage cfg st msg).ledger msg).broadcasts = [] ∧
    (processMessage cfg (processMessage cfg st msg).ledger msg).ledger =
      (processMessage cfg st msg).ledger := by
  have h1 : isMessageProcessed (processMessage cfg st msg).ledger
      msg.message_handle = true := processMessage_isProcessed cfg st msg h
  refine ⟨?_, ?_, ?_⟩
  · simp [processMessage, h, hA, hC]
  · rw [processMessage_of_processed cfg _ msg h1]
  · rw [processMessage_of_processed cfg _ msg h1]

/-- C1 witness: the fresh message `X`, observed twice, is broadcast exactly
once. -/
theorem exactly_one_delivery_witness :
    isMessageProcessed ledger0 "X" = false ∧
    (processMessage cfg0 ledger0 msgX).broadcasts.length = 1 ∧
    (processMessage cfg0 (processMessage cfg0 ledger0 msgX).ledger msgX).broadcasts
      = [] := by
  have h := exactly_one_delivery cfg0 ledger0 msgX (by decide) (by decide) (by decide)
  exact ⟨by decide, h.1, h.2.1⟩

/-- C2 counterexample: with the cursor at 50, a cycle whose fetch throws
(`Except.error`) leaves `lastPollTime` at 50 — the cursor is not advanced
at all, although the poll began at 100; and a successful cycle sets the
cursor to 200, the time the fetch returned, not to 100, the time the poll
began. Both halves of the claim's advancement rule fail on the code. -/
theorem poll_cursor_counterexample :
    pst0.lastPollTime = 50 ∧
    (poll cfg0 pst0 100 (Except.error ()) 200).1.lastPollTime = 50 ∧
    (poll cfg0 pst0 100 (Except.ok []) 200).1.lastPollTime = 200 ∧
    (200 : Nat) ≠ 100 := by
  decide

/-- C2 (amended): the cursor never decreases when the clock is monotone
(`lastPollTime ≤ nowAfterFetch`); a cycle with a successful fetch advances
it to the time the fetch returned, and a cycle whose fetch throws leaves
it unchanged. -/
theorem poll_cursor_monotone (cfg : PollerConfig) (pst : PollerState)
    (pollStart : Nat) (fetchResult : Except Unit (List SendblueMessage))
    (nowAfterFetch : Nat)
    (hp : pst.isPolling = false)
    (h : pst.lastPollTime ≤ nowAfterFetch) :
    pst.lastPollTime ≤
      (poll cfg pst pollStart fetchResult nowAfterFetch).1.lastPollTime ∧
    (∀ msgs, fetchResult = Except.ok msgs →
      (poll cfg pst pollStart fetchResult nowAfterFetch).1.lastPollTime =
        nowAfterFetch) ∧
    (∀ e : Unit, fetchResult = Except.error e →
      (poll cfg pst pollStart fetchResult nowAfterFetch).1.lastPollTime =
        pst.lastPollTime) := by
  cases fetchResult with
  | error e =>
    refine ⟨?_, ?_, ?_⟩
    · simp [poll, hp]
    · intro msgs hmsgs; cases hmsgs
    · intro e' he'; simp [poll, hp]
  | ok msgs =>
    have hL : (poll cfg pst pollStart (Except.ok msgs) nowAfterFetch).1.lastPollTime
        = nowAfterFetch := by
      simp only [poll, hp, Bool.false_eq_true, if_false]
    refine ⟨?_, ?_, ?_⟩
    · rw [hL]; exact h
    · intro msgs' hmsgs'; rw [hL]
    · intro e' he'; cases he'

/-- C2 witness: a successful cycle advances the cursor from 50 to the
fetch-return time 200. -/
theorem poll_cursor_monotone_witness :
    pst0.isPolling = false ∧ pst0.lastPollTime ≤ 200 ∧
    pst0.lastPollTime ≤ (poll cfg0 pst0 100 (Except.ok []) 200).1.lastPollTime := by
  have h := poll_cursor_monotone cfg0 pst0 100 (Except.ok []) 200 (by decide) (by decide)
  exact ⟨by decide, by decide, h.1⟩

/-- The `maxRequests || 60` defaulting of `startWebhookServer` can never
produce a zero ceiling, so every limiter the source constructs satisfies
the `1 ≤ maxRequests` hypothesis below. -/
theorem effectiveMaxRequests_pos (cfg : Option Nat) :
    1 ≤ effectiveMaxRequests cfg := by
  rcases cfg with _ | m
  · decide
  · simp only [effectiveMaxRequests]
    split <;> omega

theorem rlGet_rlSet (st : RateLimiterState) (id : String) (e : RateLimitEntry) :
    rlGet (rlSet st id e) id = some e := by
  simp [rlGet, rlSet, List.find?]

theorem isAllowed_fresh (windowMs maxRequests : Nat) (st : RateLimiterState)
    (id : String) (now : Nat) (hget : rlGet st id = none) :
    isAllowed windowMs maxRequests st id now = (true, rlSet st id ⟨1, now⟩) := by
  simp [isAllowed, hget]

theorem isAllowed_in_window_lt (windowMs maxRequests : Nat)
    (st : RateLimiterState) (id : String) (now t0 c : Nat)
    (hget : rlGet st id = some ⟨c, t0⟩) (hwin : now - t0 ≤ windowMs)
    (hlt : c < maxRequests) :
    isAllowed windowMs maxRequests st id now =
      (true, rlSet st id ⟨c + 1, t0⟩) := by
  simp only [isAllowed, hget]
  rw [if_neg (by omega), if_neg (by omega)]

theorem isAllowed_in_window_ge (windowMs maxRequests : Nat)
    (st : RateLimiterState) (id : String) (now t0 c : Nat)
    (hget : rlGet st id = some ⟨c, t0⟩) (hwin : now - t0 ≤ windowMs)
    (hge : maxRequests ≤ c) :
    isAllowed windowMs maxRequests st id now = (false, st) := by
  simp only [isAllowed, hget]
  rw [if_neg (by omega), if_pos (by omega)]

theorem isAllowed_expired (windowMs maxRequests : Nat)
    (st : RateLimiterState) (id : String) (now t0 c : Nat)
    (hget : rlGet st id = some ⟨c, t0⟩) (hexp : windowMs < now - t0) :
    isAllowed windowMs maxRequests st id now =
      (true, rlSet st id ⟨1, now⟩) := by
  simp only [isAllowed, hget]
  rw [if_pos (by omega)]

theorem isAllowed_denied_state (windowMs maxRequests : Nat)
    (st : RateLimiterState) (id : String) (now : Nat)
    (hd : (isAllowed windowMs maxRequests st id now).1 = false) :
    (isAllowed windowMs maxRequests st id now).2 = st := by
  unfold isAllowed at hd ⊢
  rcases h : rlGet st id with _ | e
  · rw [h] at hd
    simp at hd
  · rw [h] at hd
    simp only [] at hd ⊢
    split_ifs at hd ⊢
    rfl

/-- The in-window run: starting from an entry `⟨c, t0⟩` with
`1 ≤ c ≤ maxRequests`, a sequence of requests all inside the window of
`t0` is allowed until the count reaches the ceiling and denied from then
on, with the window start never moving. -/
theorem runRequests_in_window (windowMs maxRequests : Nat) (identifier : String)
    (t0 : Nat) :
    ∀ (times : List Nat) (st : RateLimiterState) (c : Nat),
      1 ≤ c → c ≤ maxRequests →
      rlGet st identifier = some ⟨c, t0⟩ →
      (∀ t ∈ times, t - t0 ≤ windowMs) →
      (runRequests windowMs maxRequests identifier st times).1 =
        List.replicate (min times.length (maxRequests - c)) true ++
        List.replicate (times.length - (maxRequests - c)) false ∧
      rlGet (runRequests windowMs maxRequests identifier st times).2 identifier =
        some ⟨min (c + times.length) maxRequests, t0⟩ := by
  intro times
  induction times with
  | nil =>
    intro st c hc1 hcm hget hw
    refine ⟨by simp [runRequests], ?_⟩
    simpa [runRequests, Nat.min_eq_left hcm] using hget
  | cons t ts ih =>
    intro st c hc1 hcm hget hw
    have hwt : t - t0 ≤ windowMs := hw t (List.mem_cons_self t ts)
    have hwts : ∀ u ∈ ts, u - t0 ≤ windowMs := fun u hu =>
      hw u (List.mem_cons_of_mem t hu)
    by_cases hlt : c < maxRequests
    · have hstep := isAllowed_in_window_lt windowMs maxRequests st identifier
        t t0 c hget hwt hlt
      have hget' : rlGet (rlSet st identifier ⟨c + 1, t0⟩) identifier =
        some ⟨c + 1, t0⟩ := rlGet_rlSet st identifier _
      have hih := ih (rlSet st identifier ⟨c + 1, t0⟩) (c + 1)
        (by omega) (by omega) hget' hwts
      refine ⟨?_, ?_⟩
      · simp only [runRequests, hstep]
        rw [hih.1]
        have h1 : min (t :: ts).length (maxRequests - c) =
            min ts.length (maxRequests - (c + 1)) + 1 := by
          simp only [List.length_cons]; omega
        have h2 : (t :: ts).length - (maxRequests - c) =
            ts.length - (maxRequests - (c + 1)) := by
          simp only [List.length_cons]; omega
        rw [h1, h2, List.replicate_succ, List.cons_append]
      · simp only [runRequests, hstep]
        rw [hih.2]
        have : c + 1 + ts.length = c + (t :: ts).length := by
          simp only [List.length_cons]; omega
        rw [this]
    · have hge : maxRequests ≤ c := by omega
      have hstep := isAllowed_in_window_ge windowMs maxRequests st identifier
        t t0 c hget hwt hge
      have hih := ih st c hc1 hcm hget hwts
      have hmc : maxRequests - c = 0 := by omega
      refine ⟨?_, ?_⟩
      · simp only [runRequests, hstep]
        rw [hih.1, hmc]
        simp [List.replicate_succ]
      · simp only [runRequests, hstep]
        rw [hih.2]
        have : min (c + ts.length) maxRequests = min (c + (t :: ts).length)
            maxRequests := by
          simp only [List.length_cons]; omega
        rw [this]

/-- C4: for any identity with no live window and any ceiling reachable
through the source's config defaulting (`maxRequests || 60` is never 0),
the limiter allows exactly `maxRequests` requests inside one window: the
first request resets the count to 1 and is allowed, requests while the
count is below the ceiling increment it and are allowed, and once the
count has reached the ceiling every further in-window request is denied
while any request past the window width is allowed again (the window
resets). -/
theorem rate_limiter_exactly_ceiling (windowMs maxRequests : Nat)
    (hmax : 1 ≤ maxRequests) (identifier : String) (st : RateLimiterState)
    (hfresh : rlGet st identifier = none) (t0 : Nat) (times : List Nat)
    (hw : ∀ t ∈ times, t - t0 ≤ windowMs) :
    (isAllowed windowMs maxRequests st identifier t0).1 = true ∧
    rlGet (isAllowed windowMs maxRequests st identifier t0).2 identifier =
      some ⟨1, t0⟩ ∧
    (runRequests windowMs maxRequests identifier st (t0 :: times)).1 =
      List.replicate (min (times.length + 1) maxRequests) true ++
      List.replicate (times.length + 1 - maxRequests) false ∧
    (∀ stD : RateLimiterState, ∀ now : Nat,
      rlGet stD identifier = some ⟨maxRequests, t0⟩ →
      (now - t0 ≤ windowMs →
        (isAllowed windowMs maxRequests stD identifier now).1 = false) ∧
      (windowMs < now - t0 →
        (isAllowed windowMs maxRequests stD identifier now).1 = true)) := by
  have hstep := isAllowed_fresh windowMs maxRequests st identifier t0 hfresh
  refine ⟨by rw [hstep], by rw [hstep]; exact rlGet_rlSet st identifier _, ?_, ?_⟩
  · have hget1 : rlGet (rlSet st identifier ⟨1, t0⟩) identifier =
      some ⟨1, t0⟩ := rlGet_rlSet st identifier _
    have hinv := runRequests_in_window windowMs maxRequests identifier t0 times
      (rlSet st identifier ⟨1, t0⟩) 1 (le_refl 1) hmax hget1 hw
    simp only [runRequests, hstep]
    rw [hinv.1]
    have h1 : min (times.length + 1) maxRequests =
        min times.length (maxRequests - 1) + 1 := by omega
    have h2 : times.length + 1 - maxRequests =
        times.length - (maxRequests - 1) := by omega
    rw [h1, h2, List.replicate_succ, List.cons_append]
  · intro stD now hgetD
    constructor
    · intro hin
      rw [isAllowed_in_window_ge windowMs maxRequests stD identifier now t0
        maxRequests hgetD hin (le_refl maxRequests)]
    · intro hout
      rw [isAllowed_expired windowMs maxRequests stD identifier now t0
        maxRequests hgetD hout]

/-- C4 witness: ceiling 2, window 60000 ms. Three requests at times 0, 1, 2
from a fresh identity: the first two are allowed, the third is denied. -/
theorem rate_limiter_exactly_ceiling_witness :
    ((1 : Nat) ≤ 2 ∧ rlGet [] "1.2.3.4" = none ∧
      ∀ t ∈ [1, 2], t - 0 ≤ 60000) ∧
    (runRequests 60000 2 "1.2.3.4" [] [0, 1, 2]).1 = [true, true, false] := by
  have h := rate_limiter_exactly_ceiling 60000 2 (by decide) "1.2.3.4" []
    (by decide) 0 [1, 2] (by decide)
  refine ⟨⟨by decide, by decide, by decide⟩, ?_⟩
  rw [h.2.2.1]
  decide

/-- C5: for a webhook request that reaches the body handler (POST to the
webhook path, rate limiter allows, secret check passes, body within the
size ceiling), the response is 400 exactly when the body is malformed JSON
or the parsed payload lacks a non-empty `message_handle` or `from_number`;
every structurally valid payload is acknowledged with 200 `received` — the
response is computed before, and does not depend on, any downstream
processing, in particular it is the same when the payload is flagged
outbound (in which case `onMessage` is simply never invoked). -/
theorem webhook_400_iff_invalid (cfg : WebhookConfig) (serverId : String)
    (rl : RateLimiterState) (req : WebhookRequest) (now : Nat)
    (hm : req.method = "POST")
    (hp : jsStartsWith req.url cfg.path = true)
    (hr : (isAllowed cfg.windowMs cfg.maxRequests rl (clientIP req) now).1 = true)
    (hs : (match cfg.secret with
           | some s => verifySecret req.headers s
           | none => true) = true)
    (hb : req.body.length ≤ MAX_BODY_SIZE) :
    ((handleWebhookRequest cfg serverId rl req now).response.status = 400 ↔
      (req.parsed = none ∨
        ∃ p, req.parsed = some p ∧ isValidSendbluePayload p = false)) ∧
    (∀ p, req.parsed = some p → isValidSendbluePayload p = true →
      (handleWebhookRequest cfg serverId rl req now).response =
        ⟨200, .received, none⟩) := by
  have hsec : (match cfg.secret with
               | some s => ! verifySecret req.headers s
               | none => false) = false := by
    rcases hc : cfg.secret with _ | s
    · rfl
    · rw [hc] at hs
      simp only [] at hs
      simp [hs]
  have hred : handleWebhookRequest cfg serverId rl req now =
      handleBodyEnd
        (isAllowed cfg.windowMs cfg.maxRequests rl (clientIP req) now).2
        req.parsed := by
    simp only [handleWebhookRequest]
    rw [if_neg (by rw [hm]; rintro ⟨h1, _⟩; simp at h1)]
    rw [if_neg (not_not_intro ⟨hm, hp⟩)]
    rw [if_neg (by rw [hr]; exact fun h => h rfl)]
    rw [if_neg (by rw [hsec]; exact fun h => Bool.noConfusion h)]
    rw [if_neg (by omega)]
  rw [hred]
  rcases hpar : req.parsed with _ | p
  · refine ⟨?_, ?_⟩
    · simp [handleBodyEnd]
    · intro p hp'; cases hp'
  · by_cases hv : isValidSendbluePayload p = true
    · refine ⟨?_, ?_⟩
      · constructor
        · intro h4
          by_cases ho : jsTruthyJson (jsonGet p "is_outbound") = true <;>
            simp [handleBodyEnd, hv, ho] at h4
        · rintro (h | ⟨q, hq, hqv⟩)
          · cases h
          · have hqp : q = p := by injection hq with h'; exact h'.symm
            rw [hqp, hv] at hqv
            exact Bool.noConfusion hqv
      · intro q hq hqv
        have hqp : q = p := by injection hq with h'; exact h'.symm
        subst hqp
        by_cases ho : jsTruthyJson (jsonGet q "is_outbound") = true <;>
          simp [handleBodyEnd, hqv, ho]
    · have hv' : isValidSendbluePayload p = false := by
        cases hvv : isValidSendbluePayload p
        · rfl
        · exact absurd hvv hv
      refine ⟨?_, ?_⟩
      · simp only [handleBodyEnd, hv']
        constructor
        · intro; exact Or.inr ⟨p, rfl, hv'⟩
        · intro; simp
      · intro q hq hqv
        have hqp : q = p := by injection hq with h'; exact h'.symm
        rw [hqp, hv'] at hqv
        exact Bool.noConfusion hqv

/-- C5 witness: a valid inbound payload posted to the webhook path is
answered 200 `received`, and the same request with an empty (malformed)
body is answered 400. -/
theorem webhook_400_iff_invalid_witness :
    (reqValid.method = "POST" ∧
     jsStartsWith reqValid.url cfgW120.path = true ∧
     (isAllowed cfgW120.windowMs cfgW120.maxRequests [] (clientIP reqValid) 0).1
       = true ∧
     reqValid.body.length ≤ MAX_BODY_SIZE) ∧
    (handleWebhookRequest cfgW120 "sendblue" [] reqValid 0).response =
      ⟨200, .received, none⟩ := by
  have h := webhook_400_iff_invalid cfgW120 "sendblue" [] reqValid 0
    rfl (by decide) (by decide) (by decide) (by decide)
  refine ⟨⟨rfl, by decide, by decide, by decide⟩, ?_⟩
  exact h.2 _ rfl (by decide)

/-- C6 counterexample: with a configured 120-second window, a denied
request is answered 429 with a `Retry-After` of 60 seconds — the header is
hard-coded to `'60'` (src/webhook.ts line 170) and does not equal the
configured window width. -/
theorem retry_after_counterexample :
    cfgW120.windowMs / 1000 = 120 ∧
    (handleWebhookRequest cfgW120 "sendblue" rlFull reqValid 0).response =
      ⟨429, .errorTooManyRequests, some 60⟩ ∧
    (60 : Nat) ≠ 120 := by
  refine ⟨by decide, ?_, by decide⟩
  rfl

/-- C6 (amended): a request denied by the rate limiter is answered 429
with a retry-after hint of a constant 60 seconds (equal to the window
width only for the default 60000 ms window); the denial leaves the
limiter's map unchanged and never invokes `onMessage`, so it cannot touch
the Dedup Ledger or the Poller. -/
theorem rate_limited_denial (cfg : WebhookConfig) (serverId : String)
    (rl : RateLimiterState) (req : WebhookRequest) (now : Nat)
    (hm : req.method = "POST")
    (hp : jsStartsWith req.url cfg.path = true)
    (hd : (isAllowed cfg.windowMs cfg.maxRequests rl (clientIP req) now).1
      = false) :
    handleWebhookRequest cfg serverId rl req now =
      ⟨⟨429, .errorTooManyRequests, some 60⟩, rl, none⟩ := by
  have hst := isAllowed_denied_state cfg.windowMs cfg.maxRequests rl
    (clientIP req) now hd
  simp only [handleWebhookRequest]
  rw [if_neg (by rw [hm]; rintro ⟨h1, _⟩; simp at h1)]
  rw [if_neg (not_not_intro ⟨hm, hp⟩)]
  rw [if_pos (by rw [hd]; exact Bool.noConfusion)]
  rw [hst]

/-- C6 witness: the exhausted identity `1.2.3.4` is denied: 429, constant
60-second retry hint, no `onMessage` call, limiter map unchanged. -/
theorem rate_limited_denial_witness :
    (reqValid.method = "POST" ∧
     (isAllowed cfgW120.windowMs cfgW120.maxRequests rlFull (clientIP reqValid) 0).1
       = false) ∧
    handleWebhookRequest cfgW120 "sendblue" rlFull reqValid 0 =
      ⟨⟨429, .errorTooManyRequests, some 60⟩, rlFull, none⟩ := by
  refine ⟨⟨rfl, by decide⟩, ?_⟩
  exact rate_limited_denial cfgW120 "sendblue" rlFull reqValid 0
    rfl (by decide) (by decide)

theorem catchInternal_pure_bind_id {α : Type} (i : Option RpcId)
    (x : Except String α) (f : α → RpcResult) :
    (catchInternal i (x >>= fun a => pure (success i (f a)))).id = i := by
  cases x <;> rfl

theorem catchInternal_pure_bind_code {α : Type} (i : Option RpcId)
    (x : Except String α) (f : α → RpcResult) :
    respErrorCode (catchInternal i (x >>= fun a => pure (success i (f a))))
        = none ∨
    respErrorCode (catchInternal i (x >>= fun a => pure (success i (f a))))
        = some (-32603) := by
  cases x
  · exact Or.inr rfl
  · exact Or.inl rfl

/-- C8: `handleRpc` always returns a structured response echoing the
request id (absent modelled as null): an unrecognized method yields error
code -32601, missing required params yield -32602 (`to`/`content` for
`send`, `chat_id` for `chats.history` and `chats.clear`), and an exception
thrown by a recognized method's collaborator is caught at the dispatch
boundary and converted into a -32603 internal-error response rather than
propagating. -/
theorem rpc_structured_response (env : RpcEnv) (request : JsonRpcRequest) :
    (handleRpc env request).id = request.id ∧
    (request.method ∉ (["watch.subscribe", "watch.unsubscribe", "send",
        "chats.list", "chats.history", "chats.clear", "status"] : List String) →
      handleRpc env request =
        rpcError request.id (-32601) ("Method not found: " ++ request.method)) ∧
    (request.method = "send" →
      (jsFalsyStr (paramTo request.params) = true ∨
        paramContent request.params = none) →
      handleRpc env request =
        rpcError request.id (-32602)
          "Invalid params: \"to\" and \"content\" required") ∧
    ((request.method = "chats.history" ∨ request.method = "chats.clear") →
      jsFalsyStr (paramChatId request.params) = true →
      handleRpc env request =
        rpcError request.id (-32602) "Invalid params: \"chat_id\" required") ∧
    (∀ e : String,
      (request.method = "watch.subscribe" → env.pollerStart = .error e →
        handleRpc env request =
          rpcError request.id (-32603) ("Internal error: " ++ e)) ∧
      (request.method = "watch.unsubscribe" → env.pollerStop = .error e →
        handleRpc env request =
          rpcError request.id (-32603) ("Internal error: " ++ e)) ∧
      (request.method = "chats.list" → env.getAllChats = .error e →
        handleRpc env request =
          rpcError request.id (-32603) ("Internal error: " ++ e)) ∧
      (request.method = "send" →
        ∀ ps t c, request.params = some ps → ps.«to» = some t → ¬ t = "" →
          ps.content = some c → env.sendMessage t c ps.media_url = .error e →
          handleRpc env request =
            rpcError request.id (-32603) ("Internal error: " ++ e)) ∧
      (request.method = "chats.history" →
        ∀ ps cid, request.params = some ps → ps.chat_id = some cid →
          ¬ cid = "" →
          env.getConversationHistory cid (ps.limit.getD 50) = .error e →
          handleRpc env request =
            rpcError request.id (-32603) ("Internal error: " ++ e)) ∧
      (request.method = "chats.clear" →
        ∀ ps cid, request.params = some ps → ps.chat_id = some cid →
          ¬ cid = "" →
          env.clearConversationHistory cid = .error e →
          handleRpc env request =
            rpcError request.id (-32603) ("Internal error: " ++ e))) := by
  obtain ⟨method, params, rid⟩ := request
  dsimp only
  refine ⟨?_, ?_, ?_, ?_, ?_⟩
  · unfold handleRpc
    dsimp only
    split <;> first
      | rfl
      | exact catchInternal_pure_bind_id rid _ (fun _ => .subscribed)
      | exact catchInternal_pure_bind_id rid _ (fun _ => .unsubscribed)
      | exact catchInternal_pure_bind_id rid _ RpcResult.chats
      | (split <;> first
          | rfl
          | exact catchInternal_pure_bind_id rid _ RpcResult.sendResult
          | exact catchInternal_pure_bind_id rid _ RpcResult.messages
          | exact catchInternal_pure_bind_id rid _ (fun _ => .cleared))
  · intro h
    unfold handleRpc
    dsimp only
    split <;> first | rfl | simp_all
  · intro h hbad
    subst h
    unfold handleRpc
    dsimp only
    rw [if_pos hbad]
    rfl
  · intro h hbad
    rcases h with h | h <;>
      (subst h; unfold handleRpc; dsimp only; simp only [if_pos hbad]; rfl)
  · intro e
    refine ⟨?_, ?_, ?_, ?_, ?_, ?_⟩
    · intro h he; subst h
      unfold handleRpc; dsimp only
      rw [he]; rfl
    · intro h he; subst h
      unfold handleRpc; dsimp only
      rw [he]; rfl
    · intro h he; subst h
      unfold handleRpc; dsimp only
      rw [he]; rfl
    · intro h ps t c hps hto hte hc he
      subst h; subst hps
      unfold handleRpc; dsimp only
      simp only [if_neg (show ¬ (jsFalsyStr (paramTo (some ps)) = true ∨
          paramContent (some ps) = none) from by
        simp [paramTo, paramContent, jsFalsyStr, hto, hc, hte])]
      simp only [Option.getD_some]
      simp only [hto, hc, Option.getD_some]
      simp only [he]
      rfl
    · intro h ps cid hps hcid hce he
      subst h; subst hps
      unfold handleRpc; dsimp only
      simp only [if_neg (show ¬ (jsFalsyStr (paramChatId (some ps)) = true) from by
        simp [paramChatId, jsFalsyStr, hcid, hce])]
      simp only [Option.getD_some]
      simp only [hcid, Option.getD_some]
      simp only [he]
      rfl
    · intro h ps cid hps hcid hce he
      subst h; subst hps
      unfold handleRpc; dsimp only
      simp only [if_neg (show ¬ (jsFalsyStr (paramChatId (some ps)) = true) from by
        simp [paramChatId, jsFalsyStr, hcid, hce])]
      simp only [Option.getD_some]
      simp only [hcid, Option.getD_some]
      simp only [he]
      rfl

/-- C8 witness: an unknown method gets a -32601 response with the request
id echoed, and a throwing collaborator surfaces as a -32603 response. -/
theorem rpc_structured_response_witness :
    ("bogus" ∉ (["watch.subscribe", "watch.unsubscribe", "send",
        "chats.list", "chats.history", "chats.clear", "status"] : List String)) ∧
    handleRpc env0 ⟨"bogus", none, some (.num 7)⟩ =
      rpcError (some (.num 7)) (-32601) "Method not found: bogus" ∧
    handleRpc envFail ⟨"chats.list", none, none⟩ =
      rpcError none (-32603) "Internal error: boom" := by
  have h1 := (rpc_structured_response env0 ⟨"bogus", none, some (.num 7)⟩).2.1
    (by decide)
  have h2 := ((rpc_structured_response envFail ⟨"chats.list", none, none⟩).2.2.2.2
    "boom").2.2.1 rfl rfl
  exact ⟨by decide, h1, h2⟩

/-- C10: the `send` method's validation rejects with -32602 exactly when
`to` is absent or the empty string or `content` is `undefined` (absent):
an empty-string `content` with a non-empty `to` passes validation and is
forwarded to `sendMessage` unchanged, while an empty-string `to` is
treated as missing. -/
theorem send_params_validation (env : RpcEnv) (params : Option RpcParams)
    (rid : Option RpcId) :
    (respErrorCode (handleRpc env ⟨"send", params, rid⟩) = some (-32602) ↔
      (jsFalsyStr (paramTo params) = true ∨ paramContent params = none)) ∧
    (∀ ps t c, params = some ps → ps.«to» = some t → ¬ t = "" →
      ps.content = some c →
      (∀ mid, env.sendMessage t c ps.media_url = .ok mid →
        handleRpc env ⟨"send", params, rid⟩ =
          success rid (.sendResult mid)) ∧
      (∀ e, env.sendMessage t c ps.media_url = .error e →
        handleRpc env ⟨"send", params, rid⟩ =
          rpcError rid (-32603) ("Internal error: " ++ e))) := by
  constructor
  · by_cases hbad : jsFalsyStr (paramTo params) = true ∨
        paramContent params = none
    · have hred : handleRpc env ⟨"send", params, rid⟩ =
          rpcError rid (-32602)
            "Invalid params: \"to\" and \"content\" required" := by
        unfold handleRpc
        dsimp only
        rw [if_pos hbad]
        rfl
      rw [hred]
      simp [respErrorCode, rpcError, hbad]
    · rcases hps : params with _ | ps
      · exact absurd (by rw [hps]; exact Or.inl rfl) hbad
      · rcases hto : ps.«to» with _ | t
        · exact absurd (by rw [hps]; exact Or.inl (by simp [paramTo, jsFalsyStr, hto])) hbad
        · by_cases hte : t = ""
          · exact absurd (by rw [hps]; exact Or.inl (by simp [paramTo, jsFalsyStr, hto, hte])) hbad
          · rcases hc : ps.content with _ | c
            · exact absurd (by rw [hps]; exact Or.inr (by simp [paramContent, hc])) hbad
            · subst hps
              have hbad' : ¬ (jsFalsyStr (paramTo (some ps)) = true ∨
                  paramContent (some ps) = none) := hbad
              unfold handleRpc
              dsimp only
              simp only [if_neg hbad']
              simp only [Option.getD_some]
              simp only [hto, hc, Option.getD_some]
              constructor
              · intro hcontra
                rcases catchInternal_pure_bind_code rid
                    (env.sendMessage t c ps.media_url) RpcResult.sendResult
                  with hnone | h33
                · rw [hnone] at hcontra
                  exact Option.noConfusion hcontra
                · rw [h33] at hcontra
                  injection hcontra with h'
                  exact absurd h' (by decide)
              · intro hcontra
                exact absurd hcontra hbad
  · intro ps t c hps hto hte hc
    subst hps
    have hbad' : ¬ (jsFalsyStr (paramTo (some ps)) = true ∨
        paramContent (some ps) = none) := by
      simp [paramTo, paramContent, jsFalsyStr, hto, hc, hte]
    constructor
    · intro mid hok
      unfold handleRpc
      dsimp only
      simp only [if_neg hbad']
      simp only [Option.getD_some]
      simp only [hto, hc, Option.getD_some]
      simp only [hok]
      rfl
    · intro e herr
      unfold handleRpc
      dsimp only
      simp only [if_neg hbad']
      simp only [Option.getD_some]
      simp only [hto, hc, Option.getD_some]
      simp only [herr]
      rfl

/-- C10 witness: an empty-string `content` with a non-empty `to` is
forwarded to `sendMessage` (which answers with a message id), while an
empty-string `to` is rejected with -32602. -/
theorem send_params_validation_witness :
    handleRpc env0 ⟨"send",
        some { «to» := some "+15551234567", content := some "" }, none⟩ =
      success none (.sendResult "msg-1") ∧
    respErrorCode (handleRpc env0 ⟨"send",
        some { «to» := some "", content := some "hello" }, none⟩) =
      some (-32602) := by
  constructor
  · exact ((send_params_validation env0
      (some { «to» := some "+15551234567", content := some "" }) none).2
      _ "+15551234567" "" rfl rfl (by decide) rfl).1 "msg-1" rfl
  · exact (send_params_validation env0
      (some { «to» := some "", content := some "hello" }) none).1.mpr
      (Or.inl (by decide))

end Clawdbot
